import Mathlib

/-!
# Verification of the Trans.eu arbitrage detector (`app.py`)

Shallow embedding of the core pipeline of `app.py`:
`TransEuAPIClient.get_access_token` (OAuth2 token cache),
`TransEuAPIClient.extract_freight_data` (normalization of raw proposals),
`TransEuAPIClient.detect_arbitrage_opportunities` (pandas route statistics),
and the `/api/route/<route_code>` handler `get_route_details`.

Modelling conventions:
* Python strings are `List Char` (code-point sequences); `str.upper` is
  `List.map Char.toUpper` (country codes are ASCII).
* Python/pandas floats are modelled as exact rationals `ℚ`; `round(x, n)`
  and pandas `.round(n)` round half to even, modelled by `roundHalfEven`.
* pandas `groupby('route')` (default `sort=True`) lists the unique group
  keys in ascending lexicographic order.
* pandas `sort_values(by, ascending=False)` (default `kind='quicksort'`)
  computes an ascending argsort and reverses the whole indexer; numpy's
  quicksort degenerates to a stable insertion sort on small arrays, so the
  result is modelled as the reverse of a stable ascending insertion sort.
* Python float division raises `ZeroDivisionError` on a zero denominator;
  this fallible division is `pyDiv` (an `Except`).  numpy/pandas column
  division never raises, and in `detect_arbitrage_opportunities` the
  denominator is made nonzero by `.replace(0, 1)` anyway.
-/

/-- Python strings, modelled as their sequence of code points. -/
abbrev Str := List Char

/-- `str.upper()` for the ASCII country codes handled by the app. -/
def strToUpper (s : Str) : Str := s.map Char.toUpper

/-- Lexicographic strict order on code-point sequences: Python `<` on `str`. -/
def strLt : Str → Str → Bool
  | [], [] => false
  | [], _ :: _ => true
  | _ :: _, [] => false
  | a :: as, b :: bs => if a < b then true else if b < a then false else strLt as bs

/-- Python `<=` on strings, as used when pandas sorts the group keys. -/
def strLe (a b : Str) : Prop := strLt b a = false

instance : DecidableRel strLe := fun a b => inferInstanceAs (Decidable (strLt b a = false))

/-- Round a rational to the nearest integer, halves to the even neighbour
(the rounding used by Python `round` and numpy/pandas `.round`). -/
def roundHalfEven (q : ℚ) : ℤ :=
  if Int.fract q < 1/2 then ⌊q⌋
  else if 1/2 < Int.fract q then ⌊q⌋ + 1
  else if 2 ∣ ⌊q⌋ then ⌊q⌋ else ⌊q⌋ + 1

/-- `round(x, 2)` / pandas `.round(2)`. -/
def round2 (q : ℚ) : ℚ := (roundHalfEven (q * 100) : ℚ) / 100

/-- `round(x, 3)` / pandas `.round(3)`. -/
def round3 (q : ℚ) : ℚ := (roundHalfEven (q * 1000) : ℚ) / 1000

/-- Python division on numbers: raises `ZeroDivisionError` on a zero
denominator instead of returning a value. -/
def pyDiv (a b : ℚ) : Except Str ℚ :=
  if b = 0 then .error "ZeroDivisionError".data else .ok (a / b)

/-- `sum(prices)` (Python `sum` starts from 0 and adds left to right). -/
def listSum : List ℚ → ℚ
  | [] => 0
  | x :: xs => x + listSum xs

/-- `min(prices)` on a non-empty list (junk value 0 on `[]`, never used:
every group a minimum is taken over is non-empty). -/
def listMin : List ℚ → ℚ
  | [] => 0
  | x :: xs => xs.foldl min x

/-- `max(prices)` on a non-empty list (junk value 0 on `[]`). -/
def listMax : List ℚ → ℚ
  | [] => 0
  | x :: xs => xs.foldl max x

/-- pandas `Series.replace(0, 1)` applied to the (rounded) mean column,
`app.py` line 304. -/
def replaceZeroWithOne (q : ℚ) : ℚ := if q = 0 then 1 else q

/-! ## Data model: raw proposals (`RawOffer`) and normalized records -/

/-- `place.address` sub-object of a spot: `{'country': ..., 'locality': ...}`.
`none` models an absent key. -/
structure Address where
  country : Option Str
  locality : Option Str
deriving DecidableEq

/-- `spot.place` sub-object. -/
structure Place where
  address : Option Address
deriving DecidableEq

/-- One entry of `freight['spots']`. -/
structure Spot where
  place : Option Place
deriving DecidableEq

/-- `publication.price` sub-object: `{'value': ..., 'currency': ...}`. -/
structure PriceInfo where
  value : Option ℚ
  currency : Option Str
deriving DecidableEq

/-- `freight.publication` sub-object. -/
structure Publication where
  price : Option PriceInfo
deriving DecidableEq

/-- `freight.capacity` sub-object: `{'value': ..., 'unit_code': ...}`. -/
structure CapacityInfo where
  value : Option ℚ
  unit_code : Option Str
deriving DecidableEq

/-- The nested `freight` object of a proposal. -/
structure Freight where
  id : Option ℤ
  publication : Option Publication
  capacity : Option CapacityInfo
  spots : Option (List Spot)
  distance : Option ℚ
deriving DecidableEq

/-- One raw freight proposal as returned by the listing endpoint. -/
structure Proposal where
  freight : Option Freight
  status : Option Str
deriving DecidableEq

/-- The empty dict `{}` that `proposal.get('freight', {})` falls back to. -/
def Freight.empty : Freight := ⟨none, none, none, none, none⟩

/-- The empty dict `{}` for `freight.get('publication', {})`. -/
def Publication.empty : Publication := ⟨none⟩

/-- The empty dict `{}` for `publication.get('price', {})`. -/
def PriceInfo.empty : PriceInfo := ⟨none, none⟩

/-- The empty dict `{}` for `freight.get('capacity', {})`. -/
def CapacityInfo.empty : CapacityInfo := ⟨none, none⟩

/-- The empty dict `{}` for `spot.get('place', {})`. -/
def Place.empty : Place := ⟨none⟩

/-- The empty dict `{}` for `place.get('address', {})`. -/
def Address.empty : Address := ⟨none, none⟩

/-- An empty spot, fallback for reading `spots[0]` / `spots[-1]` (only read
under the guard `len(spots) >= 2`, so the fallback is never used). -/
def Spot.empty : Spot := ⟨none⟩

/-- A raw element of the list handed to `extract_freight_data`.  Besides a
well-shaped proposal there are three raising dynamic shapes, distinguished
by how the `except` handler at `app.py` lines 280-282 behaves on them.
The handler's logging line 281 itself evaluates `freight.get('id', 'unknown')`,
so it only survives when the local variable `freight` currently names a
dict (possibly a stale binding from an earlier iteration):
* `notADict` — the proposal itself is not a dict: line 231
  `proposal.get('freight', {})` raises `AttributeError` before `freight`
  is (re)bound.  If no earlier iteration bound `freight`, the handler
  raises `UnboundLocalError` and the whole batch fails; otherwise the
  stale dict binding lets the handler log and skip the record.
* `badFreightField` — a dict whose `'freight'` value is not a dict (e.g.
  `None`): line 231 binds `freight` to that value, line 234
  `freight.get('id')` raises `AttributeError`, and the handler's own
  `freight.get` raises `AttributeError` again — the whole batch fails.
* `badInner` — a dict whose `'freight'` is a dict but with a raising
  deeper structure (e.g. a non-dict spot entry): `freight` is bound to a
  dict, so the handler logs and the record is skipped. -/
inductive RawOffer where
  | ok (p : Proposal)
  | notADict
  | badFreightField
  | badInner
deriving DecidableEq

/-- The uncaught exceptions that can escape `extract_freight_data` when
the `except` handler's logging line (`app.py` line 281) raises itself. -/
inductive ExtractError where
  | unboundLocalError
  | attributeError
deriving DecidableEq

/-- Normalized flat record (`freight_record` dict, `app.py` lines 263-276). -/
structure FreightRecord where
  freight_id : Option ℤ
  status : Option Str
  price : ℚ
  currency : Str
  capacity : ℚ
  capacity_unit : Str
  loading_country : Str
  loading_city : Str
  unloading_country : Str
  unloading_city : Str
  route : Str
  distance_km : ℚ
deriving DecidableEq

/-! ## Normalization: `extract_freight_data` (`app.py` lines 225-284) -/

/-- The spots list of a proposal: `proposal.get('freight', {}).get('spots', [])`. -/
def spotsOf (proposal : Proposal) : List Spot :=
  (proposal.freight.getD Freight.empty).spots.getD []

/-- The raw loading country of a proposal:
`spots[0].get('place', {}).get('address', {}).get('country', '')`. -/
def rawLoadingCountry (proposal : Proposal) : Str :=
  ((((spotsOf proposal).headD Spot.empty).place.getD Place.empty).address.getD
    Address.empty).country.getD []

/-- The raw unloading country of a proposal:
`spots[-1].get('place', {}).get('address', {}).get('country', '')`. -/
def rawUnloadingCountry (proposal : Proposal) : Str :=
  ((((spotsOf proposal).getLastD Spot.empty).place.getD Place.empty).address.getD
    Address.empty).country.getD []

/-- Body of the `try` block for one proposal, `app.py` lines 231-278.
Returns `none` when the record is skipped because it has fewer than two
stops (`if len(spots) >= 2`, line 250).  Under that guard `spots[0]` is
`headD` and `spots[-1]` is `getLastD`. -/
def extractProposal (proposal : Proposal) : Option FreightRecord :=
  let freight := proposal.freight.getD Freight.empty
  let freight_id := freight.id
  let status := proposal.status
  let publication := freight.publication.getD Publication.empty
  let price_info := publication.price.getD PriceInfo.empty
  let price := price_info.value.getD 0
  let currency := price_info.currency.getD "EUR".data
  let capacity_info := freight.capacity.getD CapacityInfo.empty
  let capacity := capacity_info.value.getD 0
  let capacity_unit := capacity_info.unit_code.getD "t".data
  let spots := freight.spots.getD []
  if 2 ≤ spots.length then
    let loading_address :=
      ((spots.headD Spot.empty).place.getD Place.empty).address.getD Address.empty
    let loading_country := strToUpper (loading_address.country.getD [])
    let loading_city := loading_address.locality.getD []
    let unloading_address :=
      ((spots.getLastD Spot.empty).place.getD Place.empty).address.getD Address.empty
    let unloading_country := strToUpper (unloading_address.country.getD [])
    let unloading_city := unloading_address.locality.getD []
    some
      { freight_id := freight_id
        status := status
        price := price
        currency := currency
        capacity := capacity
        capacity_unit := capacity_unit
        loading_country := loading_country
        loading_city := loading_city
        unloading_country := unloading_country
        unloading_city := unloading_city
        route := loading_country ++ "-".data ++ unloading_country
        distance_km := freight.distance.getD 0 }
  else none

/-- The record one offer contributes to the output when the batch
survives: only a well-shaped proposal can contribute, the raising shapes
are skipped (or crash the batch, see `extractLoop`). -/
def tryExtract : RawOffer → Option FreightRecord
  | .ok p => extractProposal p
  | _ => none

/-- The loop of `extract_freight_data`, accumulating `freight_data` by
appending each successfully extracted record.  `freightBound` records
whether the function-local variable `freight` is currently bound to a
dict (bindings persist across iterations of the Python loop).  A raising
shape is skipped only when the handler's logging line can evaluate
`freight.get`; otherwise the exception escapes and the batch fails. -/
def extractLoop :
    List RawOffer → List FreightRecord → Bool → Except ExtractError (List FreightRecord)
  | [], acc, _ => .ok acc
  | .ok p :: rest, acc, _ =>
      match extractProposal p with
      | some r => extractLoop rest (acc ++ [r]) true
      | none => extractLoop rest acc true
  | .badInner :: rest, acc, _ => extractLoop rest acc true
  | .notADict :: rest, acc, freightBound =>
      if freightBound then extractLoop rest acc freightBound
      else .error .unboundLocalError
  | .badFreightField :: _, _, _ => .error .attributeError

/-- `TransEuAPIClient.extract_freight_data` (`app.py` lines 225-284);
`freight` starts unbound. -/
def extract_freight_data (proposals : List RawOffer) :
    Except ExtractError (List FreightRecord) :=
  extractLoop proposals [] false

/-! ## Detection: `detect_arbitrage_opportunities` (`app.py` lines 286-313) -/

/-- One row of the `route_analysis` frame after renaming, `reset_index`
and the volatility column (`app.py` lines 294-305). -/
structure RouteStat where
  route : Str
  price_mean : ℚ
  price_min : ℚ
  price_max : ℚ
  price_count : ℕ
  price_volatility : ℚ
deriving DecidableEq

/-- The prices of the group of records sharing `route`. -/
def groupPrices (freight_data : List FreightRecord) (route : Str) : List ℚ :=
  (freight_data.filter (fun f => f.route == route)).map (fun f => f.price)

/-- The `route_analysis` row for one group: `agg` of
`mean`/`min`/`max`/`count` over the group's prices, `.round(2)` (the
integral count is unchanged by rounding), then the volatility column
`((price_max - price_min) / price_mean.replace(0, 1)).round(3)`. -/
def mkStat (freight_data : List FreightRecord) (route : Str) : RouteStat :=
  let prices := groupPrices freight_data route
  let price_mean := round2 (listSum prices / (prices.length : ℚ))
  let price_min := round2 (listMin prices)
  let price_max := round2 (listMax prices)
  let price_volatility :=
    round3 ((price_max - price_min) / replaceZeroWithOne price_mean)
  { route := route
    price_mean := price_mean
    price_min := price_min
    price_max := price_max
    price_count := prices.length
    price_volatility := price_volatility }

/-- The distinct routes of the input in first-seen order. -/
def firstSeenRoutes (freight_data : List FreightRecord) : List Str :=
  freight_data.foldl
    (fun acc f => if f.route ∈ acc then acc else acc ++ [f.route]) []

/-- The group keys of `df.groupby('route')`: the distinct routes in
ascending lexicographic order (pandas sorts group keys by default). -/
def groupbyRoutes (freight_data : List FreightRecord) : List Str :=
  List.insertionSort strLe (firstSeenRoutes freight_data)

/-- The `route_analysis` frame, one `RouteStat` row per group, rows in
group-key order (`app.py` lines 294-305). -/
def route_analysis (freight_data : List FreightRecord) : List RouteStat :=
  (groupbyRoutes freight_data).map (mkStat freight_data)

/-- Row order of `sort_values('price_volatility', ascending=False)`:
ascending comparison on the volatility column. -/
def volLe (a b : RouteStat) : Prop := a.price_volatility ≤ b.price_volatility

instance : DecidableRel volLe :=
  fun a b => inferInstanceAs (Decidable (a.price_volatility ≤ b.price_volatility))

instance : IsTotal RouteStat volLe := ⟨fun a b => le_total a.price_volatility b.price_volatility⟩

instance : IsTrans RouteStat volLe := ⟨fun _ _ _ h1 h2 => le_trans h1 h2⟩

/-- `TransEuAPIClient.detect_arbitrage_opportunities` (`app.py` lines
286-313): empty guard, per-route statistics, threshold filter
(`price_volatility > 0.2` and `price_count >= 2`), and
`sort_values('price_volatility', ascending=False)` — an ascending argsort
(stable for small inputs) whose indexer is reversed. -/
def detect_arbitrage_opportunities (freight_data : List FreightRecord) :
    List RouteStat :=
  if freight_data.isEmpty then []
  else
    let stats := route_analysis freight_data
    let arbitrage_routes :=
      stats.filter
        (fun s => decide ((0.2 : ℚ) < s.price_volatility) && decide (2 ≤ s.price_count))
    (List.insertionSort volLe arbitrage_routes).reverse

/-! ## Route drill-down: `get_route_details` (`app.py` lines 393-437) -/

/-- The `statistics` dict of the `/api/route/<route_code>` response
(`app.py` lines 423-430), together with the matched records. -/
structure RouteDetails where
  route : Str
  freights : List FreightRecord
  count : ℕ
  min_price : ℚ
  max_price : ℚ
  avg_price : ℚ
  price_spread : ℚ
  volatility : ℚ

/-- Failure payloads of `/api/route/<route_code>`: the explicit
`success: false` "no offers found for route" answer (`app.py` lines
410-414), and the generic `except` handler answer (lines 433-437) that
wraps any exception raised while computing the statistics. -/
inductive RouteFailure where
  | notFound (route_code : Str)
  | internalError (msg : Str)
deriving DecidableEq

/-- Core of `get_route_details` (`app.py` lines 407-430), after the
records have been fetched and normalized: filter to the exact upper-cased
route, answer not-found on an empty match, otherwise build the statistics.
The volatility denominator `sum(prices) / len(prices)` is plain Python
float division (`pyDiv`): it raises `ZeroDivisionError` when the mean is
zero, which the generic handler turns into an `internalError`.  The
`avg_price` division is by `len(prices) ≠ 0` and cannot raise. -/
def get_route_details (freight_data : List FreightRecord) (route_code : Str) :
    Except RouteFailure RouteDetails :=
  let route_freights := freight_data.filter (fun f => f.route == strToUpper route_code)
  if route_freights.isEmpty then .error (.notFound route_code)
  else
    let prices := route_freights.map (fun f => f.price)
    match pyDiv (listMax prices - listMin prices) (listSum prices / (prices.length : ℚ)) with
    | .error msg => .error (.internalError msg)
    | .ok rawVol =>
        .ok
          { route := strToUpper route_code
            freights := route_freights
            count := route_freights.length
            min_price := listMin prices
            max_price := listMax prices
            avg_price := round2 (listSum prices / (prices.length : ℚ))
            price_spread := listMax prices - listMin prices
            volatility := round3 rawVol }

/-! ## Token management: `get_access_token` (`app.py` lines 154-193) -/

/-- The token-relevant fields of `TransEuAPIClient`: `access_token` and
`token_expires_at` (both initialized to `None`).  Timestamps are integer
seconds. -/
structure ClientState where
  access_token : Option Str
  token_expires_at : Option ℤ
deriving DecidableEq

/-- The decoded JSON body of the token endpoint response:
`access_token`, and `expires_in` which may be absent. -/
structure TokenResponse where
  access_token : Str
  expires_in : Option ℤ
deriving DecidableEq

/-- The guard at `app.py` line 169:
`self.access_token and self.token_expires_at and datetime.now() < self.token_expires_at`.
A `None` or empty-string token is falsy; a `datetime` object is always
truthy. -/
def tokenValid (tok : Option Str) (expires : Option ℤ) (now : ℤ) : Bool :=
  match tok, expires with
  | some s, some e => !s.isEmpty && decide (now < e)
  | _, _ => false

/-- `TransEuAPIClient.get_access_token` (`app.py` lines 167-193) as a pure
step: given the current state, the current time and the (would-be) token
endpoint response, it returns the token handed to the caller, the new
client state, and the number of POSTs made to the token endpoint. -/
def get_access_token (st : ClientState) (now : ℤ) (resp : TokenResponse) :
    Str × ClientState × ℕ :=
  if tokenValid st.access_token st.token_expires_at now then
    ((st.access_token.getD []), st, 0)
  else
    let expires_in := resp.expires_in.getD 3600
    (resp.access_token,
      { access_token := some resp.access_token
        token_expires_at := some (now + (expires_in - 60)) },
      1)

/-! ### Interleaving model for concurrent `get_access_token` callers

`get_access_token` runs unsynchronized on shared `self`.  Its observable
atomic steps are: the cache check (line 169), the POST to the token
endpoint (lines 182-185), the store of `self.access_token` (line 186) and
the store of `self.token_expires_at` (line 191).  Two callers are two
threads, each at a program counter, interleaved by an explicit schedule. -/

/-- Shared mutable state: the two cached fields plus a counter of POSTs to
the token endpoint. -/
structure SharedState where
  access_token : Option Str
  token_expires_at : Option ℤ
  refreshes : ℕ
deriving DecidableEq

/-- One caller of `get_access_token`: its program counter and the token
endpoint response its POST will receive.  `pc = 0`: about to run the cache
check; `1`: about to POST; `2`: about to store the token; `3`: about to
store the expiry; `4`: returned. -/
structure Caller where
  pc : ℕ
  resp : TokenResponse
deriving DecidableEq

/-- One atomic step of one caller of `get_access_token`. -/
def callerStep (now : ℤ) (st : SharedState) (t : Caller) : SharedState × Caller :=
  match t.pc with
  | 0 =>
      if tokenValid st.access_token st.token_expires_at now then
        (st, { t with pc := 4 })
      else
        (st, { t with pc := 1 })
  | 1 => ({ st with refreshes := st.refreshes + 1 }, { t with pc := 2 })
  | 2 => ({ st with access_token := some t.resp.access_token }, { t with pc := 3 })
  | 3 =>
      ({ st with
          token_expires_at := some (now + (t.resp.expires_in.getD 3600 - 60)) },
        { t with pc := 4 })
  | _ => (st, t)

/-- Run a schedule over two callers: `false` steps the first caller,
`true` steps the second. -/
def runSchedule (now : ℤ) :
    SharedState → Caller → Caller → List Bool → SharedState × Caller × Caller
  | st, a, b, [] => (st, a, b)
  | st, a, b, false :: rest =>
      let p := callerStep now st a
      runSchedule now p.1 p.2 b rest
  | st, a, b, true :: rest =>
      let p := callerStep now st b
      runSchedule now p.1 a p.2 rest

/-! ## Concrete inputs used by the claim instances -/

/-- A normalized record on the lane `lc`-`uc` with the given price (the
fields `detect_arbitrage_opportunities` does not read are fixed defaults). -/
def sampleRecord (lc uc : Str) (price : ℚ) : FreightRecord :=
  { freight_id := none
    status := none
    price := price
    currency := "EUR".data
    capacity := 0
    capacity_unit := "t".data
    loading_country := lc
    loading_city := []
    unloading_country := uc
    unloading_city := []
    route := lc ++ "-".data ++ uc
    distance_km := 0 }

/-- The route `"PL-DE"`. -/
def routePLDE : Str := "PL".data ++ "-".data ++ "DE".data

/-- The route `"AA-AA"`. -/
def routeAA : Str := "AA".data ++ "-".data ++ "AA".data

/-- The route `"BB-BB"`. -/
def routeBB : Str := "BB".data ++ "-".data ++ "BB".data

/-- The route `"DE-FR"`. -/
def routeDEFR : Str := "DE".data ++ "-".data ++ "FR".data

/-- The spec's volatility example: prices 100, 100, 150 on one route. -/
def ex1 : List FreightRecord :=
  [sampleRecord "PL".data "DE".data 100,
   sampleRecord "PL".data "DE".data 100,
   sampleRecord "PL".data "DE".data 150]

/-- The `route_analysis` row for `ex1`. -/
def stat1 : RouteStat :=
  { route := routePLDE
    price_mean := 116.67
    price_min := 100
    price_max := 150
    price_count := 3
    price_volatility := 0.429 }

/-- Two routes with equal volatility 0.4, `"AA-AA"` seen first. -/
def exTie : List FreightRecord :=
  [sampleRecord "AA".data "AA".data 100,
   sampleRecord "AA".data "AA".data 150,
   sampleRecord "BB".data "BB".data 200,
   sampleRecord "BB".data "BB".data 300]

/-- The same four records with `"BB-BB"` seen first. -/
def exTieRev : List FreightRecord :=
  [sampleRecord "BB".data "BB".data 200,
   sampleRecord "BB".data "BB".data 300,
   sampleRecord "AA".data "AA".data 100,
   sampleRecord "AA".data "AA".data 150]

/-- The `route_analysis` row of the `"AA-AA"` group of `exTie`. -/
def statAA : RouteStat :=
  { route := routeAA
    price_mean := 125
    price_min := 100
    price_max := 150
    price_count := 2
    price_volatility := 0.4 }

/-- The `route_analysis` row of the `"BB-BB"` group of `exTie`. -/
def statBB : RouteStat :=
  { route := routeBB
    price_mean := 250
    price_min := 200
    price_max := 300
    price_count := 2
    price_volatility := 0.4 }

/-- A record on route `"DE-FR"` whose price is 0 (exactly what
normalization produces for an offer without a price value). -/
def recZero : FreightRecord := sampleRecord "DE".data "FR".data 0

/-- A spot with a full `place.address` entry. -/
def goodSpot (c loc : Str) : Spot :=
  { place := some { address := some { country := some c, locality := some loc } } }

/-- A fully populated proposal: loading country `"DE"`, unloading country
`"fr"`, price 100 EUR. -/
def pGood : Proposal :=
  { freight := some
      { id := some 7
        publication := some { price := some { value := some 100, currency := some "EUR".data } }
        capacity := some { value := some 24, unit_code := some "t".data }
        spots := some [goodSpot "DE".data "Berlin".data, goodSpot "fr".data "Paris".data]
        distance := some 1050 }
    status := some "published".data }

/-- The record `extract_freight_data` produces for `pGood`. -/
def recGood : FreightRecord :=
  { freight_id := some 7
    status := some "published".data
    price := 100
    currency := "EUR".data
    capacity := 24
    capacity_unit := "t".data
    loading_country := "DE".data
    loading_city := "Berlin".data
    unloading_country := "FR".data
    unloading_city := "Paris".data
    route := "DE-FR".data
    distance_km := 1050 }

/-- A proposal with a single stop: unconvertible, must be skipped. -/
def pOneSpot : Proposal :=
  { freight := some
      { id := some 8
        publication := none
        capacity := none
        spots := some [goodSpot "DE".data "Berlin".data]
        distance := none }
    status := none }

/-- A two-stop proposal carrying only a price: no id, no status, no
capacity, no distance, no cities. -/
def pBare : Proposal :=
  { freight := some
      { id := none
        publication := some { price := some { value := some 50, currency := none } }
        capacity := none
        spots := some [goodSpot "PL".data [], goodSpot "DE".data []]
        distance := none }
    status := none }

/-- Cache state with a live token `"old"` that expires at time 50. -/
def staleState : SharedState :=
  { access_token := some "old".data, token_expires_at := some 50, refreshes := 0 }

/-- First concurrent caller of `get_access_token`; its refresh would
install token `"t1"`. -/
def callerOne : Caller :=
  { pc := 0, resp := { access_token := "t1".data, expires_in := some 3600 } }

/-- Second concurrent caller; its refresh would install token `"t2"`. -/
def callerTwo : Caller :=
  { pc := 0, resp := { access_token := "t2".data, expires_in := some 3600 } }

/-! ## Helper lemmas -/

set_option maxRecDepth 8000

theorem extractLoop_ok_mem :
    ∀ (offers : List RawOffer) (acc : List FreightRecord) (b : Bool)
      (out : List FreightRecord),
      extractLoop offers acc b = .ok out → ∀ r ∈ out,
        r ∈ acc ∨ ∃ o ∈ offers, tryExtract o = some r := by
  intro offers
  induction offers with
  | nil =>
      intro acc b out h r hr
      rw [show extractLoop [] acc b = .ok acc from rfl, Except.ok.injEq] at h
      subst h
      exact Or.inl hr
  | cons o rest ih =>
      intro acc b out h r hr
      cases o with
      | ok p =>
          cases hp : extractProposal p with
          | some r0 =>
              have h2 : extractLoop rest (acc ++ [r0]) true = .ok out := by
                rw [show extractLoop (.ok p :: rest) acc b =
                    (match extractProposal p with
                     | some r => extractLoop rest (acc ++ [r]) true
                     | none => extractLoop rest acc true) from rfl, hp] at h
                exact h
              rcases ih (acc ++ [r0]) true out h2 r hr with hacc | ⟨o2, ho2, hto⟩
              · rcases List.mem_append.mp hacc with h3 | h3
                · exact Or.inl h3
                · refine Or.inr ⟨.ok p, List.mem_cons_self _ _, ?_⟩
                  rw [List.mem_singleton.mp h3]
                  exact hp
              · exact Or.inr ⟨o2, List.mem_cons_of_mem _ ho2, hto⟩
          | none =>
              have h2 : extractLoop rest acc true = .ok out := by
                rw [show extractLoop (.ok p :: rest) acc b =
                    (match extractProposal p with
                     | some r => extractLoop rest (acc ++ [r]) true
                     | none => extractLoop rest acc true) from rfl, hp] at h
                exact h
              rcases ih acc true out h2 r hr with hacc | ⟨o2, ho2, hto⟩
              · exact Or.inl hacc
              · exact Or.inr ⟨o2, List.mem_cons_of_mem _ ho2, hto⟩
      | badInner =>
          rcases ih acc true out h r hr with hacc | ⟨o2, ho2, hto⟩
          · exact Or.inl hacc
          · exact Or.inr ⟨o2, List.mem_cons_of_mem _ ho2, hto⟩
      | notADict =>
          cases b with
          | true =>
              rcases ih acc true out h r hr with hacc | ⟨o2, ho2, hto⟩
              · exact Or.inl hacc
              · exact Or.inr ⟨o2, List.mem_cons_of_mem _ ho2, hto⟩
          | false => exact absurd h (by simp [extractLoop])
      | badFreightField => exact absurd h (by simp [extractLoop])

theorem extractProposal_some_fields (p : Proposal) (r : FreightRecord)
    (h : extractProposal p = some r) :
    r.loading_country = strToUpper (rawLoadingCountry p) ∧
    r.unloading_country = strToUpper (rawUnloadingCountry p) ∧
    r.route = r.loading_country ++ "-".data ++ r.unloading_country := by
  unfold extractProposal at h
  dsimp only [] at h
  split at h
  · rw [Option.some.injEq] at h
    subst h
    refine ⟨rfl, rfl, rfl⟩
  · exact absurd h (by simp)

theorem mem_extract_exists (offers : List RawOffer) (out : List FreightRecord)
    (r : FreightRecord) (hok : extract_freight_data offers = .ok out) (hr : r ∈ out) :
    ∃ o ∈ offers, tryExtract o = some r := by
  rcases extractLoop_ok_mem offers [] false out hok r hr with h | h
  · exact absurd h (List.not_mem_nil r)
  · exact h

theorem mkStat_ex1 : mkStat ex1 routePLDE = stat1 := by
  have hp : groupPrices ex1 routePLDE = [100, 100, 150] := by decide
  unfold mkStat stat1
  rw [hp]
  norm_num [listSum, listMin, listMax, List.foldl, round2, round3, roundHalfEven,
    replaceZeroWithOne, Int.fract, min_def, max_def, RouteStat.mk.injEq]

theorem route_analysis_ex1 : route_analysis ex1 = [stat1] := by
  have hg : groupbyRoutes ex1 = [routePLDE] := by decide
  rw [route_analysis, hg]
  simp only [List.map, mkStat_ex1]

theorem detect_ex1 : detect_arbitrage_opportunities ex1 = [stat1] := by
  have he : ex1.isEmpty = false := by decide
  rw [detect_arbitrage_opportunities, he]
  simp only [Bool.false_eq_true, if_false, route_analysis_ex1, List.filter_cons,
    List.filter_nil, Bool.and_eq_true, decide_eq_true_eq]
  have hvol : ((0.2 : ℚ) < stat1.price_volatility ∧ 2 ≤ stat1.price_count) := by
    constructor
    · show (0.2 : ℚ) < 0.429
      norm_num
    · show 2 ≤ 3
      norm_num
  simp only [if_pos hvol]
  simp only [List.insertionSort, List.orderedInsert, List.reverse, List.reverseAux]

theorem mkStat_exTie_AA : mkStat exTie routeAA = statAA := by
  have hp : groupPrices exTie routeAA = [100, 150] := by decide
  unfold mkStat statAA
  rw [hp]
  norm_num [listSum, listMin, listMax, List.foldl, round2, round3, roundHalfEven,
    replaceZeroWithOne, Int.fract, min_def, max_def, RouteStat.mk.injEq]

theorem mkStat_exTie_BB : mkStat exTie routeBB = statBB := by
  have hp : groupPrices exTie routeBB = [200, 300] := by decide
  unfold mkStat statBB
  rw [hp]
  norm_num [listSum, listMin, listMax, List.foldl, round2, round3, roundHalfEven,
    replaceZeroWithOne, Int.fract, min_def, max_def, RouteStat.mk.injEq]

theorem mkStat_exTieRev_AA : mkStat exTieRev routeAA = statAA := by
  have hp : groupPrices exTieRev routeAA = [100, 150] := by decide
  unfold mkStat statAA
  rw [hp]
  norm_num [listSum, listMin, listMax, List.foldl, round2, round3, roundHalfEven,
    replaceZeroWithOne, Int.fract, min_def, max_def, RouteStat.mk.injEq]

theorem mkStat_exTieRev_BB : mkStat exTieRev routeBB = statBB := by
  have hp : groupPrices exTieRev routeBB = [200, 300] := by decide
  unfold mkStat statBB
  rw [hp]
  norm_num [listSum, listMin, listMax, List.foldl, round2, round3, roundHalfEven,
    replaceZeroWithOne, Int.fract, min_def, max_def, RouteStat.mk.injEq]

theorem detect_exTie : detect_arbitrage_opportunities exTie = [statBB, statAA] := by
  have he : exTie.isEmpty = false := by decide
  have hg : groupbyRoutes exTie = [routeAA, routeBB] := by decide
  rw [detect_arbitrage_opportunities, he]
  simp only [Bool.false_eq_true, if_false]
  rw [route_analysis, hg]
  simp only [List.map, mkStat_exTie_AA, mkStat_exTie_BB]
  simp only [List.filter_cons, List.filter_nil, Bool.and_eq_true, decide_eq_true_eq]
  have hA : ((0.2 : ℚ) < statAA.price_volatility ∧ 2 ≤ statAA.price_count) := by
    constructor
    · show (0.2 : ℚ) < 0.4
      norm_num
    · show 2 ≤ 2
      norm_num
  have hB : ((0.2 : ℚ) < statBB.price_volatility ∧ 2 ≤ statBB.price_count) := by
    constructor
    · show (0.2 : ℚ) < 0.4
      norm_num
    · show 2 ≤ 2
      norm_num
  have hle : volLe statAA statBB := by
    show (0.4 : ℚ) ≤ 0.4
    norm_num
  simp only [if_pos hA, if_pos hB, List.insertionSort, List.orderedInsert, if_pos hle,
    List.reverse, List.reverseAux]

theorem detect_exTieRev : detect_arbitrage_opportunities exTieRev = [statBB, statAA] := by
  have he : exTieRev.isEmpty = false := by decide
  have hg : groupbyRoutes exTieRev = [routeAA, routeBB] := by decide
  rw [detect_arbitrage_opportunities, he]
  simp only [Bool.false_eq_true, if_false]
  rw [route_analysis, hg]
  simp only [List.map, mkStat_exTieRev_AA, mkStat_exTieRev_BB]
  simp only [List.filter_cons, List.filter_nil, Bool.and_eq_true, decide_eq_true_eq]
  have hA : ((0.2 : ℚ) < statAA.price_volatility ∧ 2 ≤ statAA.price_count) := by
    constructor
    · show (0.2 : ℚ) < 0.4
      norm_num
    · show 2 ≤ 2
      norm_num
  have hB : ((0.2 : ℚ) < statBB.price_volatility ∧ 2 ≤ statBB.price_count) := by
    constructor
    · show (0.2 : ℚ) < 0.4
      norm_num
    · show 2 ≤ 2
      norm_num
  have hle : volLe statAA statBB := by
    show (0.4 : ℚ) ≤ 0.4
    norm_num
  simp only [if_pos hA, if_pos hB, List.insertionSort, List.orderedInsert, if_pos hle,
    List.reverse, List.reverseAux]

/-! ## Claim theorems -/

/-- Claim C1: for every non-empty route group the detector computes
`price_mean`, `price_min`, `price_max` as the group quantities rounded to 2
decimals, `price_count` as the group size, and `price_volatility` as
`(price_max - price_min) / (price_mean if price_mean != 0 else 1)` rounded
to 3 decimals; on prices `[100, 100, 150]` of one route it yields
`price_mean = 116.67`, `price_min = 100`, `price_max = 150`,
`price_volatility = 0.429`. -/
theorem c1_route_group_statistics :
    (∀ freight_data route, groupPrices freight_data route ≠ [] →
      (mkStat freight_data route).price_mean =
          round2 (listSum (groupPrices freight_data route) /
            ((groupPrices freight_data route).length : ℚ)) ∧
      (mkStat freight_data route).price_min =
          round2 (listMin (groupPrices freight_data route)) ∧
      (mkStat freight_data route).price_max =
          round2 (listMax (groupPrices freight_data route)) ∧
      (mkStat freight_data route).price_count = (groupPrices freight_data route).length ∧
      (mkStat freight_data route).price_volatility =
          round3 (((mkStat freight_data route).price_max -
              (mkStat freight_data route).price_min) /
            (if (mkStat freight_data route).price_mean = 0 then 1
             else (mkStat freight_data route).price_mean))) ∧
    route_analysis ex1 = [stat1] ∧
    stat1.price_mean = 116.67 ∧ stat1.price_min = 100 ∧ stat1.price_max = 150 ∧
    stat1.price_count = 3 ∧ stat1.price_volatility = 0.429 :=
  ⟨fun _ _ _ => ⟨rfl, rfl, rfl, rfl, rfl⟩, route_analysis_ex1, rfl, rfl, rfl, rfl, rfl⟩

/-- Witness for C1 at the spec's example group. -/
theorem c1_route_group_statistics_witness :
    groupPrices ex1 routePLDE ≠ [] ∧
    (mkStat ex1 routePLDE).price_volatility =
      round3 (((mkStat ex1 routePLDE).price_max - (mkStat ex1 routePLDE).price_min) /
        (if (mkStat ex1 routePLDE).price_mean = 0 then 1
         else (mkStat ex1 routePLDE).price_mean)) :=
  ⟨by decide, (c1_route_group_statistics.1 ex1 routePLDE (by decide)).2.2.2.2⟩

/-- Claim C2: `detect_arbitrage_opportunities` keeps exactly the
`route_analysis` rows with `price_volatility > 0.2` and `price_count >= 2`
(volatility exactly 0.2 or a single-offer group is excluded), and the
detector returns `[]` on empty input. -/
theorem c2_threshold_filter :
    detect_arbitrage_opportunities [] = [] ∧
    (∀ freight_data s, s ∈ route_analysis freight_data →
      (s ∈ detect_arbitrage_opportunities freight_data ↔
        ((0.2 : ℚ) < s.price_volatility ∧ 2 ≤ s.price_count))) ∧
    (∀ freight_data s, s ∈ route_analysis freight_data →
      s.price_volatility = 0.2 → s ∉ detect_arbitrage_opportunities freight_data) ∧
    (∀ freight_data s, s ∈ route_analysis freight_data →
      s.price_count = 1 → s ∉ detect_arbitrage_opportunities freight_data) := by
  have hmain : ∀ freight_data s, s ∈ route_analysis freight_data →
      (s ∈ detect_arbitrage_opportunities freight_data ↔
        ((0.2 : ℚ) < s.price_volatility ∧ 2 ≤ s.price_count)) := by
    intro fd s hs
    unfold detect_arbitrage_opportunities
    cases hfd : fd.isEmpty with
    | true =>
        rw [List.isEmpty_iff] at hfd
        subst hfd
        rw [show route_analysis [] = [] from rfl] at hs
        exact absurd hs (List.not_mem_nil s)
    | false =>
        simp only [Bool.false_eq_true, if_false, List.mem_reverse, List.mem_insertionSort,
          List.mem_filter, Bool.and_eq_true, decide_eq_true_eq]
        exact ⟨fun h => h.2, fun h => ⟨hs, h⟩⟩
  refine ⟨rfl, hmain, ?_, ?_⟩
  · intro fd s hs hvol hmem
    exact absurd ((hmain fd s hs).mp hmem).1 (by rw [hvol]; exact lt_irrefl _)
  · intro fd s hs hcount hmem
    have h2 := ((hmain fd s hs).mp hmem).2
    rw [hcount] at h2
    exact absurd h2 (by norm_num)

/-- Witness for C2 at the example group of `ex1`. -/
theorem c2_threshold_filter_witness :
    stat1 ∈ route_analysis ex1 ∧
    (stat1 ∈ detect_arbitrage_opportunities ex1 ↔
      ((0.2 : ℚ) < stat1.price_volatility ∧ 2 ≤ stat1.price_count)) := by
  have hs : stat1 ∈ route_analysis ex1 := by
    rw [route_analysis_ex1]
    exact List.mem_singleton.mpr rfl
  exact ⟨hs, c2_threshold_filter.2.1 ex1 stat1 hs⟩

/-- Counterexample to claim C3: in `exTie` the route `"AA-AA"` is seen
before `"BB-BB"` and both groups have volatility 0.4, yet the detector
returns the `"BB-BB"` row first — ties do not keep first-seen order. -/
theorem c3_tie_order_counterexample :
    firstSeenRoutes exTie = [routeAA, routeBB] ∧
    (detect_arbitrage_opportunities exTie).map RouteStat.route = [routeBB, routeAA] ∧
    (detect_arbitrage_opportunities exTie).map RouteStat.price_volatility = [0.4, 0.4] := by
  refine ⟨by decide, ?_, ?_⟩
  · rw [detect_exTie]
    rfl
  · rw [detect_exTie]
    rfl

/-- Claim C3 as amended: the detector's output is sorted by
`price_volatility` descending; the tie order is independent of the
first-seen order of the routes (the groupby stage sorts the group keys
alphabetically and the descending sort reverses a stable ascending sort):
`exTieRev` lists the same four records with `"BB-BB"` seen first and
produces the same output as `exTie`. -/
theorem c3_sorted_descending :
    (∀ freight_data,
      List.Sorted (fun a b => b.price_volatility ≤ a.price_volatility)
        (detect_arbitrage_opportunities freight_data)) ∧
    firstSeenRoutes exTieRev = [routeBB, routeAA] ∧
    (detect_arbitrage_opportunities exTieRev).map RouteStat.route = [routeBB, routeAA] := by
  refine ⟨?_, by decide, ?_⟩
  · intro fd
    unfold detect_arbitrage_opportunities
    cases hfd : fd.isEmpty with
    | true => simp
    | false =>
        simp only [Bool.false_eq_true, if_false]
        have hs := List.sorted_insertionSort volLe
          ((route_analysis fd).filter
            (fun s => decide ((0.2 : ℚ) < s.price_volatility) && decide (2 ≤ s.price_count)))
        exact List.pairwise_reverse.mpr hs
  · rw [detect_exTieRev]
    rfl

/-- Claim C5 is the intended behaviour, but the code has no mutual
exclusion: interleaving two callers of `get_access_token` past expiry
(time 100, cached expiry 50) performs two token-endpoint refreshes, and
after caller one has stored the token (line 186) but not yet the expiry
(line 191) the shared state pairs the fresh token `"t1"` with the stale
expiry 50 — a torn value/expiry pair from different refresh cycles. -/
theorem c5_concurrent_refresh_race :
    (runSchedule 100 staleState callerOne callerTwo
        [false, true, false, false, false, true, true, true]).1.refreshes = 2 ∧
    (runSchedule 100 staleState callerOne callerTwo [false, false, false]).1 =
      { access_token := some "t1".data, token_expires_at := some 50, refreshes := 1 } :=
  ⟨by decide, by decide⟩

/-- Claim C4: with a cached non-empty token and `now` strictly before the
cached expiry, `get_access_token` returns the cached token unchanged with
no network call; otherwise it performs one client-credentials POST and
stores the new token with expiry `now + (expires_in - 60)`, where a
missing `expires_in` defaults to 3600 seconds. -/
theorem c4_token_cache_and_refresh :
    (∀ st now resp s e,
      st.access_token = some s → s ≠ [] → st.token_expires_at = some e → now < e →
      get_access_token st now resp = (s, st, 0)) ∧
    (∀ st now resp,
      tokenValid st.access_token st.token_expires_at now = false →
      get_access_token st now resp =
        (resp.access_token,
          { access_token := some resp.access_token
            token_expires_at := some (now + (resp.expires_in.getD 3600 - 60)) }, 1)) ∧
    (∀ st now resp, resp.expires_in = none →
      tokenValid st.access_token st.token_expires_at now = false →
      (get_access_token st now resp).2.1.token_expires_at = some (now + (3600 - 60))) := by
  have hrefresh : ∀ (st : ClientState) (now : ℤ) (resp : TokenResponse),
      tokenValid st.access_token st.token_expires_at now = false →
      get_access_token st now resp =
        (resp.access_token,
          { access_token := some resp.access_token
            token_expires_at := some (now + (resp.expires_in.getD 3600 - 60)) }, 1) := by
    intro st now resp hv
    rw [get_access_token, hv]
    simp
  refine ⟨?_, hrefresh, ?_⟩
  · intro st now resp s e h1 h2 h3 h4
    have hv : tokenValid st.access_token st.token_expires_at now = true := by
      rw [h1, h3]
      unfold tokenValid
      cases s with
      | nil => exact absurd rfl h2
      | cons c cs => simp [h4]
    rw [get_access_token, hv]
    simp [h1]
  · intro st now resp hn hv
    rw [hrefresh st now resp hv, hn]
    rfl

/-- Witness for C4: a cache hit at time 900 against expiry 1000, and a
refresh at time 1000 with no server-reported TTL. -/
theorem c4_token_cache_and_refresh_witness :
    get_access_token ⟨some "tok".data, some 1000⟩ 900 ⟨"new".data, none⟩ =
      ("tok".data, ⟨some "tok".data, some 1000⟩, 0) ∧
    get_access_token ⟨some "tok".data, some 1000⟩ 1000 ⟨"new".data, none⟩ =
      ("new".data, ⟨some "new".data, some (1000 + (3600 - 60))⟩, 1) := by
  constructor
  · exact c4_token_cache_and_refresh.1 ⟨some "tok".data, some 1000⟩ 900 ⟨"new".data, none⟩
      "tok".data 1000 rfl (by decide) rfl (by decide)
  · exact c4_token_cache_and_refresh.2.1 ⟨some "tok".data, some 1000⟩ 1000
      ⟨"new".data, none⟩ (by decide)

/-- Claim C6 is the intended behaviour, but the `except` handler's
logging line (`app.py` line 281) itself evaluates
`freight.get('id', 'unknown')` and can raise: a first proposal that is
not a dict leaves `freight` unbound (`UnboundLocalError`), and a
proposal whose `'freight'` value is not a dict rebinds `freight` to a
non-dict (`AttributeError` again) — in both cases `extract_freight_data`
fails as a whole instead of skipping the record.  The skip-and-continue
behaviour only works while `freight` happens to name a dict: a one-stop
proposal is skipped without error, a deep per-record failure is skipped,
and a trailing non-dict proposal is skipped thanks to the stale binding. -/
theorem c6_handler_crash_on_malformed :
    extract_freight_data [.notADict] = .error .unboundLocalError ∧
    extract_freight_data [.notADict, .ok pGood] = .error .unboundLocalError ∧
    extract_freight_data [.ok pGood, .badFreightField, .ok pGood] =
      .error .attributeError ∧
    extract_freight_data [.ok pOneSpot, .badInner, .ok pGood, .notADict] =
      .ok [recGood] :=
  ⟨rfl, rfl, rfl, rfl⟩

/-- Claim C7: every record produced by normalization has
`route = loading_country ++ "-" ++ unloading_country`, where the country
fields are the upper-cased raw countries; the offer `pGood` with loading
country `"DE"` and unloading country `"fr"` yields route `"DE-FR"`. -/
theorem c7_route_derivation :
    (∀ offers out r, extract_freight_data offers = .ok out → r ∈ out →
      r.route = r.loading_country ++ "-".data ++ r.unloading_country) ∧
    (∀ p r, extractProposal p = some r →
      r.loading_country = strToUpper (rawLoadingCountry p) ∧
      r.unloading_country = strToUpper (rawUnloadingCountry p)) ∧
    (extractProposal pGood).map FreightRecord.route = some "DE-FR".data := by
  refine ⟨?_, ?_, by decide⟩
  · intro offers out r hok hr
    obtain ⟨o, _, ho⟩ := mem_extract_exists offers out r hok hr
    cases o with
    | ok p => exact (extractProposal_some_fields p r ho).2.2
    | notADict => exact absurd ho (by simp [tryExtract])
    | badFreightField => exact absurd ho (by simp [tryExtract])
    | badInner => exact absurd ho (by simp [tryExtract])
  · intro p r h
    exact ⟨(extractProposal_some_fields p r h).1, (extractProposal_some_fields p r h).2.1⟩

/-- Witness for C7 at the offer `pGood` (countries `"DE"` and `"fr"`). -/
theorem c7_route_derivation_witness :
    extract_freight_data [.ok pGood] = .ok [recGood] ∧
    recGood.route = recGood.loading_country ++ "-".data ++ recGood.unloading_country ∧
    recGood.loading_country = strToUpper (rawLoadingCountry pGood) ∧
    recGood.unloading_country = strToUpper (rawUnloadingCountry pGood) := by
  have hok : extract_freight_data [.ok pGood] = .ok [recGood] := rfl
  have hp : extractProposal pGood = some recGood := by decide
  exact ⟨hok,
    c7_route_derivation.1 [.ok pGood] [recGood] recGood hok (List.mem_singleton.mpr rfl),
    (c7_route_derivation.2.1 pGood recGood hp).1,
    (c7_route_derivation.2.1 pGood recGood hp).2⟩

/-- Claim C10: a two-stop offer still normalizes when optional fields are
absent: missing `distance` gives `distance_km = 0`, missing freight `id`
and proposal `status` give `none` fields — and the record is kept. -/
theorem c10_normalize_missing_field_defaults :
    ∀ p : Proposal, 2 ≤ (spotsOf p).length →
      (p.freight.getD Freight.empty).distance = none →
      (p.freight.getD Freight.empty).id = none →
      p.status = none →
      ∃ r, extractProposal p = some r ∧ extract_freight_data [.ok p] = .ok [r] ∧
        r.distance_km = 0 ∧ r.freight_id = none ∧ r.status = none := by
  intro p hlen hdist hid hstatus
  have hsome : ∃ r, extractProposal p = some r ∧
      r.distance_km = 0 ∧ r.freight_id = none ∧ r.status = none := by
    have hlen2 : 2 ≤ ((p.freight.getD Freight.empty).spots.getD []).length := hlen
    unfold extractProposal
    dsimp only []
    rw [if_pos hlen2]
    refine ⟨_, rfl, ?_, hid, hstatus⟩
    show (p.freight.getD Freight.empty).distance.getD 0 = 0
    rw [hdist]
    rfl
  obtain ⟨r, hr, h0, h1, h2⟩ := hsome
  refine ⟨r, hr, ?_, h0, h1, h2⟩
  show extractLoop [.ok p] [] false = .ok [r]
  rw [show extractLoop [.ok p] [] false =
      (match extractProposal p with
       | some r => extractLoop [] ([] ++ [r]) true
       | none => extractLoop [] [] true) from rfl, hr]
  rfl

/-- Witness for C10: the bare two-stop offer `pBare`. -/
theorem c10_normalize_missing_field_defaults_witness :
    2 ≤ (spotsOf pBare).length ∧
    (∃ r, extractProposal pBare = some r ∧ extract_freight_data [.ok pBare] = .ok [r] ∧
      r.distance_km = 0 ∧ r.freight_id = none ∧ r.status = none) :=
  ⟨by decide,
    c10_normalize_missing_field_defaults pBare (by decide) (by decide) (by decide) (by decide)⟩

/-- Counterexample to claim C8: the drill-down statistics of
`get_route_details` do not substitute 1 for a zero mean — on the matching
record with price 0 the volatility division raises `ZeroDivisionError`,
surfaced as the generic internal failure. -/
theorem c8_drilldown_zero_mean_counterexample :
    [recZero].filter (fun f => f.route == strToUpper "de-fr".data) = [recZero] ∧
    get_route_details [recZero] "de-fr".data =
      .error (.internalError "ZeroDivisionError".data) := by
  have hf : [recZero].filter (fun f => f.route == strToUpper "de-fr".data) = [recZero] := by
    decide
  refine ⟨hf, ?_⟩
  have hc : listSum [recZero.price] / ((1 : ℕ) : ℚ) = 0 := by
    norm_num [listSum, recZero, sampleRecord]
  simp only [get_route_details, hf, List.isEmpty_cons, Bool.false_eq_true, if_false,
    List.map, List.length_cons, List.length_nil, pyDiv, hc, if_true]

/-- Claim C8 as amended: inside `detect_arbitrage_opportunities` the
volatility denominator goes through `replace(0, 1)` and is never zero
(an all-zero-price group gets volatility 0 and the detector completes),
but the drill-down statistics divide by the raw mean with no guard. -/
theorem c8_detect_zero_mean_guard :
    (∀ q : ℚ, replaceZeroWithOne q ≠ 0) ∧
    (∀ freight_data route,
      (mkStat freight_data route).price_volatility =
        round3 (((mkStat freight_data route).price_max -
            (mkStat freight_data route).price_min) /
          replaceZeroWithOne (mkStat freight_data route).price_mean)) ∧
    (mkStat [recZero, recZero] routeDEFR).price_volatility = 0 ∧
    detect_arbitrage_opportunities [recZero, recZero] = [] := by
  have hstat : mkStat [recZero, recZero] routeDEFR =
      { route := routeDEFR
        price_mean := 0
        price_min := 0
        price_max := 0
        price_count := 2
        price_volatility := 0 } := by
    have hp : groupPrices [recZero, recZero] routeDEFR = [0, 0] := by decide
    unfold mkStat
    rw [hp]
    norm_num [listSum, listMin, listMax, List.foldl, round2, round3, roundHalfEven,
      replaceZeroWithOne, Int.fract, min_def, max_def, RouteStat.mk.injEq]
  refine ⟨?_, fun _ _ => rfl, ?_, ?_⟩
  · intro q
    unfold replaceZeroWithOne
    split
    · exact one_ne_zero
    · assumption
  · rw [hstat]
  · have he : ([recZero, recZero] : List FreightRecord).isEmpty = false := by decide
    have hg : groupbyRoutes [recZero, recZero] = [routeDEFR] := by decide
    rw [detect_arbitrage_opportunities, he]
    simp only [Bool.false_eq_true, if_false]
    rw [route_analysis, hg]
    simp only [List.map, hstat, List.filter_cons, List.filter_nil, Bool.and_eq_true,
      decide_eq_true_eq]
    rw [if_neg]
    · rfl
    · exact fun hcon => absurd hcon.1 (by norm_num)

/-- Counterexample to claim C9: both records of the input match the
requested route (case-insensitively via upper-casing), yet the operation
returns the generic internal failure instead of the route's statistics,
because the matching prices sum to zero. -/
theorem c9_match_without_statistics_counterexample :
    ([recZero, recZero].filter (fun f => f.route == strToUpper "de-fr".data)).length = 2 ∧
    get_route_details [recZero, recZero] "de-fr".data =
      .error (.internalError "ZeroDivisionError".data) := by
  have hf : [recZero, recZero].filter (fun f => f.route == strToUpper "de-fr".data) =
      [recZero, recZero] := by decide
  constructor
  · rw [hf]
    rfl
  · have hc : listSum [recZero.price, recZero.price] / ((2 : ℕ) : ℚ) = 0 := by
      norm_num [listSum, recZero, sampleRecord]
    simp only [get_route_details, hf, List.isEmpty_cons, Bool.false_eq_true, if_false,
      List.map, List.length_cons, List.length_nil, pyDiv, hc, if_true]

/-- Claim C9 as amended: the drill-down selects exactly the records whose
route equals the upper-cased requested code, fails with the not-found
payload when no record matches, and returns the route's statistics when
at least one record matches and the matching prices do not sum to zero
(an all-zero match instead raises inside the statistics, see the
counterexample). -/
theorem c9_route_selection :
    (∀ freight_data route_code,
      freight_data.filter (fun f => f.route == strToUpper route_code) = [] →
      get_route_details freight_data route_code = .error (.notFound route_code)) ∧
    (∀ freight_data route_code d,
      get_route_details freight_data route_code = .ok d →
      d.freights = freight_data.filter (fun f => f.route == strToUpper route_code) ∧
      d.route = strToUpper route_code) ∧
    (∀ freight_data route_code,
      freight_data.filter (fun f => f.route == strToUpper route_code) ≠ [] →
      listSum ((freight_data.filter (fun f => f.route == strToUpper route_code)).map
        (fun f => f.price)) ≠ 0 →
      ∃ d, get_route_details freight_data route_code = .ok d ∧
        d.freights = freight_data.filter (fun f => f.route == strToUpper route_code)) := by
  refine ⟨?_, ?_, ?_⟩
  · intro fd rc h
    unfold get_route_details
    dsimp only []
    rw [h]
    rfl
  · intro fd rc d h
    unfold get_route_details at h
    dsimp only [] at h
    cases hemp : (fd.filter (fun f => f.route == strToUpper rc)).isEmpty with
    | true => rw [hemp] at h; exact absurd h (by simp)
    | false =>
        rw [hemp] at h
        simp only [Bool.false_eq_true, if_false] at h
        split at h
        · exact absurd h (by simp)
        · rw [Except.ok.injEq] at h
          subst h
          exact ⟨rfl, rfl⟩
  · intro fd rc hne hsum
    unfold get_route_details
    dsimp only []
    have hemp : (fd.filter (fun f => f.route == strToUpper rc)).isEmpty = false := by
      cases hh : fd.filter (fun f => f.route == strToUpper rc) with
      | nil => exact absurd hh hne
      | cons a l => rfl
    rw [hemp]
    simp only [Bool.false_eq_true, if_false]
    have hlen : (((fd.filter (fun f => f.route == strToUpper rc)).map
        (fun f => f.price)).length : ℚ) ≠ 0 := by
      rw [List.length_map]
      rw [Nat.cast_ne_zero]
      intro h0
      exact hne (List.length_eq_zero.mp h0)
    have hdenom : listSum ((fd.filter (fun f => f.route == strToUpper rc)).map
        (fun f => f.price)) /
        ((((fd.filter (fun f => f.route == strToUpper rc)).map
          (fun f => f.price)).length : ℕ) : ℚ) ≠ 0 := div_ne_zero hsum hlen
    rw [pyDiv, if_neg hdenom]
    exact ⟨_, rfl, rfl⟩

/-- Witness for C9: a request for an unknown route answers not-found, and
a request matching one record with price 100 returns its statistics. -/
theorem c9_route_selection_witness :
    get_route_details [recZero] "zz".data = .error (.notFound "zz".data) ∧
    (∃ d, get_route_details [recGood] "de-fr".data = .ok d ∧
      d.freights = [recGood].filter (fun f => f.route == strToUpper "de-fr".data)) := by
  constructor
  · exact c9_route_selection.1 [recZero] "zz".data (by decide)
  · refine c9_route_selection.2.2 [recGood] "de-fr".data (by decide) ?_
    have hf : [recGood].filter (fun f => f.route == strToUpper "de-fr".data) = [recGood] := by
      decide
    rw [hf]
    norm_num [listSum, recGood]
